import Mathlib

/-!
Shallow embedding of `S3ToRedshiftOperator`
(`providers/src/airflow/providers/amazon/aws/transfers/s3_to_redshift.py`).

The operator's configuration fields become a structure; `_build_copy_query`
becomes a pure string function; `execute` becomes a pure function from the
configuration and an environment (connection extras, resolved static
credentials, backend-discovered primary key) to the ordered trace of external
interactions (hook construction, connection lookup, credential fetch,
primary-key discovery, statement submission) together with an optional raised
`AirflowException` message.  Python truthiness of optional strings / lists /
dicts is modelled explicitly.
-/

namespace S3ToRedshift

/-- Python truthiness of an optional string: `None` and `""` are falsy. -/
def pyTruthy : Option String → Bool
  | some s => !(s == "")
  | none => false

/-- Python `str()` of an optional string as interpolated in an f-string:
`None` renders as `"None"`. -/
def pyStr : Option String → String
  | some s => s
  | none => "None"

/-- Source line 32: `AVAILABLE_METHODS = ["APPEND", "REPLACE", "UPSERT"]`. -/
def AVAILABLE_METHODS : List String := ["APPEND", "REPLACE", "UPSERT"]

/-- The `sql` value handed to the backend: Python gives either a bare string
(APPEND) or a list of statements (REPLACE / UPSERT). -/
inductive SqlPayload where
  | single (s : String)
  | multi (l : List String)
deriving DecidableEq

/-- The statement sequence a payload denotes (a bare string is one statement). -/
def SqlPayload.toStatements : SqlPayload → List String
  | .single s => [s]
  | .multi l => l

/-- The configuration fields of `S3ToRedshiftOperator` as stored by
`__init__` (source lines 88-119).  `redshift_data_api_kwargs` is modelled by
the list of its keys (its values never influence the planning logic). -/
structure S3ToRedshiftOperator where
  schema : Option String
  table : String
  s3_bucket : String
  s3_key : String
  redshift_conn_id : String
  aws_conn_id : Option String
  column_list : Option (List String)
  copy_options : List String
  autocommit : Bool
  method : String
  upsert_keys : Option (List String)
  redshift_data_api_kwargs : List String
deriving DecidableEq

/-- Constructor validation, source lines 106-124: store the fields
(`copy_options or []`, `redshift_data_api_kwargs or {}`), then if the kwargs
dict is non-empty raise for the first reserved key among `sql`, `parameters`
found inside it. -/
def mkS3ToRedshiftOperator (table s3_bucket s3_key : String)
    (schema : Option String) (redshift_conn_id : String)
    (aws_conn_id : Option String) (column_list : Option (List String))
    (copy_options : Option (List String)) (autocommit : Bool) (method : String)
    (upsert_keys : Option (List String))
    (redshift_data_api_kwargs : Option (List String)) :
    Except String S3ToRedshiftOperator :=
  let kwargs := redshift_data_api_kwargs.getD []
  if kwargs ≠ [] ∧ "sql" ∈ kwargs then
    .error "Cannot include param 'sql' in Redshift Data API kwargs"
  else if kwargs ≠ [] ∧ "parameters" ∈ kwargs then
    .error "Cannot include param 'parameters' in Redshift Data API kwargs"
  else
    .ok { schema := schema, table := table, s3_bucket := s3_bucket,
          s3_key := s3_key, redshift_conn_id := redshift_conn_id,
          aws_conn_id := aws_conn_id, column_list := column_list,
          copy_options := copy_options.getD [], autocommit := autocommit,
          method := method, upsert_keys := upsert_keys,
          redshift_data_api_kwargs := kwargs }

/-- Property `use_redshift_data`, source lines 126-128:
`bool(self.redshift_data_api_kwargs)`. -/
def S3ToRedshiftOperator.use_redshift_data (op : S3ToRedshiftOperator) : Bool :=
  !op.redshift_data_api_kwargs.isEmpty

/-- Source line 133: `"(" + ", ".join(self.column_list) + ")" if
self.column_list else ""` (both `None` and `[]` are falsy). -/
def S3ToRedshiftOperator.column_names (op : S3ToRedshiftOperator) : String :=
  match op.column_list with
  | some cols => if cols.isEmpty then "" else "(" ++ String.intercalate ", " cols ++ ")"
  | none => ""

/-- `_build_copy_query`, source lines 130-141: the COPY f-string with its
exact literal whitespace. -/
def S3ToRedshiftOperator.build_copy_query (op : S3ToRedshiftOperator)
    (copy_destination credentials_block region_info copy_options : String) :
    String :=
  "\n                    COPY " ++ copy_destination ++ " " ++ op.column_names ++
  "\n                    FROM 's3://" ++ op.s3_bucket ++ "/" ++ op.s3_key ++
  "'\n                    credentials\n                    '" ++
  credentials_block ++ "'\n                    " ++ region_info ++
  "\n                    " ++ copy_options ++ ";\n        "

/-- The `extra_dejson` fields of the AWS (S3) connection that `execute`
consults: optional `region` and `role_arn` entries (source lines 152-161). -/
structure ConnExtras where
  region : Option String
  role_arn : Option String
deriving DecidableEq

/-- The environment `execute` runs against: the AWS connection's extras, the
credentials block that `build_credentials_block(s3_hook.get_credentials())`
would produce, and the keys `get_table_primary_key` would discover. -/
structure ExecEnv where
  conn_extras : ConnExtras
  credentials_block_static : String
  discovered_primary_key : List String
deriving DecidableEq

/-- External interactions of `execute`, in program order. -/
inductive ExecEvent where
  | createRedshiftDataHook
  | createRedshiftSQLHook
  | getS3Connection
  | fetchStaticCredentials
  | getTablePrimaryKey
  | runStatements (sql : SqlPayload)
deriving DecidableEq

/-- Hook construction, source lines 147-150: exactly one of the two hooks is
built, chosen by `use_redshift_data`. -/
def S3ToRedshiftOperator.hook_events (op : S3ToRedshiftOperator) : List ExecEvent :=
  if op.use_redshift_data then [ExecEvent.createRedshiftDataHook]
  else [ExecEvent.createRedshiftSQLHook]

/-- Source line 152: the S3 connection is looked up only when `aws_conn_id`
is truthy. -/
def S3ToRedshiftOperator.conn_events (op : S3ToRedshiftOperator) : List ExecEvent :=
  if pyTruthy op.aws_conn_id then [ExecEvent.getS3Connection] else []

/-- Source line 156: `conn and conn.extra_dejson.get("role_arn", False)` —
the connection exists and its `role_arn` extra is truthy. -/
def S3ToRedshiftOperator.uses_role_arn (op : S3ToRedshiftOperator)
    (env : ExecEnv) : Bool :=
  pyTruthy op.aws_conn_id && pyTruthy env.conn_extras.role_arn

/-- Source lines 156-161: static credentials are fetched from the S3 hook
exactly when the role-ARN branch is not taken. -/
def S3ToRedshiftOperator.cred_events (op : S3ToRedshiftOperator)
    (env : ExecEnv) : List ExecEvent :=
  if op.uses_role_arn env then [] else [ExecEvent.fetchStaticCredentials]

/-- Source lines 156-161: `credentials_block` is `aws_iam_role=<arn>` in the
role-ARN branch and the built static block otherwise. -/
def S3ToRedshiftOperator.credentials_block (op : S3ToRedshiftOperator)
    (env : ExecEnv) : String :=
  if op.uses_role_arn env then
    "aws_iam_role=" ++ env.conn_extras.role_arn.getD ""
  else env.credentials_block_static

/-- Source lines 153-155: `region_info` is `region '<r>'` when the connection
exists and its `region` extra is truthy, else `""`. -/
def S3ToRedshiftOperator.region_info (op : S3ToRedshiftOperator)
    (env : ExecEnv) : String :=
  if pyTruthy op.aws_conn_id && pyTruthy env.conn_extras.region then
    "region '" ++ env.conn_extras.region.getD "" ++ "'"
  else ""

/-- Source line 163: `"\n\t\t\t".join(self.copy_options)`. -/
def S3ToRedshiftOperator.copy_options_clause (op : S3ToRedshiftOperator) : String :=
  String.intercalate "\n\t\t\t" op.copy_options

/-- Source line 164: `f"{self.schema}.{self.table}" if self.schema else
self.table`. -/
def S3ToRedshiftOperator.destination (op : S3ToRedshiftOperator) : String :=
  if pyTruthy op.schema then op.schema.getD "" ++ "." ++ op.table else op.table

/-- Source line 165: `f"#{self.table}" if self.method == "UPSERT" else
destination`. -/
def S3ToRedshiftOperator.copy_destination (op : S3ToRedshiftOperator) : String :=
  if op.method == "UPSERT" then "#" ++ op.table else op.destination

/-- Source lines 167-169: the compiled COPY statement. -/
def S3ToRedshiftOperator.copy_statement (op : S3ToRedshiftOperator)
    (env : ExecEnv) : String :=
  op.build_copy_query op.copy_destination (op.credentials_block env)
    (op.region_info env) op.copy_options_clause

/-- Python truthiness of `self.upsert_keys` (`None` and `[]` are falsy),
deciding the short-circuit in `self.upsert_keys or
hook.get_table_primary_key(...)` (source lines 177-181). -/
def S3ToRedshiftOperator.upsert_keys_truthy (op : S3ToRedshiftOperator) : Bool :=
  match op.upsert_keys with
  | some l => !l.isEmpty
  | none => false

/-- Source lines 176-181: primary-key discovery runs exactly when
`upsert_keys` is falsy. -/
def S3ToRedshiftOperator.upsert_key_events (op : S3ToRedshiftOperator) : List ExecEvent :=
  if op.upsert_keys_truthy then [] else [ExecEvent.getTablePrimaryKey]

/-- Source lines 176-181: `keys = self.upsert_keys or
hook.get_table_primary_key(...)`. -/
def S3ToRedshiftOperator.resolved_keys (op : S3ToRedshiftOperator)
    (env : ExecEnv) : List String :=
  if op.upsert_keys_truthy then op.upsert_keys.getD []
  else env.discovered_primary_key

/-- Source line 186: `" AND ".join([f"{self.table}.{k} =
{copy_destination}.{k}" for k in keys])`. -/
def S3ToRedshiftOperator.where_statement (op : S3ToRedshiftOperator)
    (env : ExecEnv) : String :=
  String.intercalate " AND "
    ((op.resolved_keys env).map (fun k =>
      op.table ++ "." ++ k ++ " = " ++ op.copy_destination ++ "." ++ k))

/-- Source line 174: the REPLACE statement list. -/
def S3ToRedshiftOperator.replace_sql (op : S3ToRedshiftOperator)
    (env : ExecEnv) : SqlPayload :=
  SqlPayload.multi ["BEGIN;", "DELETE FROM " ++ op.destination ++ ";",
    op.copy_statement env, "COMMIT"]

/-- Source lines 188-195: the UPSERT statement list. -/
def S3ToRedshiftOperator.upsert_sql (op : S3ToRedshiftOperator)
    (env : ExecEnv) : SqlPayload :=
  SqlPayload.multi
    ["CREATE TABLE " ++ op.copy_destination ++ " (LIKE " ++ op.destination ++
       " INCLUDING DEFAULTS);",
     op.copy_statement env,
     "BEGIN;",
     "DELETE FROM " ++ op.destination ++ " USING " ++ op.copy_destination ++
       " WHERE " ++ op.where_statement env ++ ";",
     "INSERT INTO " ++ op.destination ++ " SELECT * FROM " ++
       op.copy_destination ++ ";",
     "COMMIT"]

/-- Source line 145: the `AirflowException` message for an unknown method
(Python interpolates the repr of `AVAILABLE_METHODS`). -/
def method_not_found_msg : String :=
  "Method not found! Available methods: ['APPEND', 'REPLACE', 'UPSERT']"

/-- Source lines 183-185: the `AirflowException` message raised when no
upsert keys are available (`{self.schema}` renders `None` when absent). -/
def S3ToRedshiftOperator.no_primary_key_msg (op : S3ToRedshiftOperator) : String :=
  "No primary key on " ++ pyStr op.schema ++ "." ++ op.table ++
    ". Please provide keys on 'upsert_keys'"

/-- `execute`, source lines 143-205, as a pure function: the ordered trace of
external interactions together with the raised exception message, if any.
The method guard (line 144) fires before any hook is built; hook
construction, connection lookup and credential resolution happen next; for
UPSERT, key discovery runs when `upsert_keys` is falsy and the no-primary-key
exception aborts before any statement is submitted; otherwise the planned
payload is submitted to the chosen backend. -/
def S3ToRedshiftOperator.execute (op : S3ToRedshiftOperator) (env : ExecEnv) :
    List ExecEvent × Option String :=
  if op.method ∉ AVAILABLE_METHODS then
    ([], some method_not_found_msg)
  else
    let pre := op.hook_events ++ op.conn_events ++ op.cred_events env
    if op.method == "REPLACE" then
      (pre ++ [ExecEvent.runStatements (op.replace_sql env)], none)
    else if op.method == "UPSERT" then
      if (op.resolved_keys env).isEmpty then
        (pre ++ op.upsert_key_events, some op.no_primary_key_msg)
      else
        (pre ++ op.upsert_key_events ++
           [ExecEvent.runStatements (op.upsert_sql env)], none)
    else
      (pre ++ [ExecEvent.runStatements (SqlPayload.single (op.copy_statement env))],
       none)

/-- The first (and only) statement payload submitted in a trace, if any. -/
def submitted_sql : List ExecEvent → Option SqlPayload
  | [] => none
  | ExecEvent.runStatements s :: _ => some s
  | _ :: es => submitted_sql es

/-- The single-quote character used as the literal delimiter in the COPY
template. -/
def sq : Char := Char.ofNat 39

/-- Modelled from the spec: the source has no parser, but the spec's
round-trip property re-parses destination, bucket and key prefix back out of
the compiled COPY text.  This drops the fixed 26-character `COPY` header. -/
def after_copy_hdr (l : List Char) : List Char := l.drop 26

/-- Modelled from the spec: the destination re-parsed from COPY text (the
token between the `COPY ` header and the following space). -/
def dest_part (l : List Char) : List Char :=
  (after_copy_hdr l).takeWhile (fun c => c != ' ')

/-- Modelled from the spec: the characters following the opening quote and
`s3://` of the FROM clause. -/
def s3_part (l : List Char) : List Char :=
  (((after_copy_hdr l).dropWhile (fun c => c != ' ')).dropWhile
    (fun c => c != sq)).drop 6

/-- Modelled from the spec: the bucket re-parsed from COPY text (up to the
first slash of the object path). -/
def bucket_part (l : List Char) : List Char :=
  (s3_part l).takeWhile (fun c => c != '/')

/-- Modelled from the spec: the key prefix re-parsed from COPY text (up to
the closing quote of the FROM literal). -/
def key_part (l : List Char) : List Char :=
  (((s3_part l).dropWhile (fun c => c != '/')).drop 1).takeWhile
    (fun c => c != sq)

/-- Modelled from the spec: re-parse destination, bucket and key prefix from
a compiled COPY statement. -/
def parse_copy_query (s : String) : String × String × String :=
  (String.mk (dest_part s.data), String.mk (bucket_part s.data),
   String.mk (key_part s.data))

/-- A concrete execution environment: no IAM role, so static credentials are
fetched; the backend discovers no primary key. -/
def envW : ExecEnv :=
  { conn_extras := { region := some "us-east-1", role_arn := none },
    credentials_block_static :=
      "aws_access_key_id=AK;aws_secret_access_key=SK",
    discovered_primary_key := [] }

/-- A concrete execution environment whose AWS connection carries a
`role_arn` extra. -/
def envC9 : ExecEnv :=
  { conn_extras :=
      { region := none,
        role_arn := some "arn:aws:iam::123456789012:role/redshift-copy" },
    credentials_block_static :=
      "aws_access_key_id=AK;aws_secret_access_key=SK",
    discovered_primary_key := [] }

/-- A concrete baseline operator configuration (APPEND into
`public.orders` from `s3://my-bucket/data/2024/`). -/
def baseOp : S3ToRedshiftOperator :=
  { schema := some "public", table := "orders", s3_bucket := "my-bucket",
    s3_key := "data/2024/", redshift_conn_id := "redshift_default",
    aws_conn_id := some "aws_default", column_list := none,
    copy_options := [], autocommit := false, method := "APPEND",
    upsert_keys := none, redshift_data_api_kwargs := [] }

/-- Concrete UPSERT configuration with supplied upsert keys. -/
def opC1 : S3ToRedshiftOperator :=
  { baseOp with method := "UPSERT", upsert_keys := some ["id"] }

/-- Concrete REPLACE configuration with a schema. -/
def opC2a : S3ToRedshiftOperator := { baseOp with method := "REPLACE" }

/-- Concrete REPLACE configuration without a schema. -/
def opC2b : S3ToRedshiftOperator :=
  { baseOp with method := "REPLACE", schema := none }

/-- Concrete configuration with an unknown method. -/
def opC3 : S3ToRedshiftOperator := { baseOp with method := "MERGE" }

/-- Concrete UPSERT configuration with no upsert keys. -/
def opC4 : S3ToRedshiftOperator := { baseOp with method := "UPSERT" }

/-- Concrete configuration with a two-column column list. -/
def opC6a : S3ToRedshiftOperator := { baseOp with column_list := some ["a", "b"] }

/-- Concrete configuration with an empty column list. -/
def opC6b : S3ToRedshiftOperator := { baseOp with column_list := some [] }

/-- Concrete configuration used for the round-trip check. -/
def opC8 : S3ToRedshiftOperator := { baseOp with column_list := some ["a", "b"] }

theorem submitted_sql_append (l₁ l₂ : List ExecEvent)
    (h : ∀ s, ExecEvent.runStatements s ∉ l₁) :
    submitted_sql (l₁ ++ l₂) = submitted_sql l₂ := by
  induction l₁ with
  | nil => rfl
  | cons e es ih =>
    have h' : ∀ s, ExecEvent.runStatements s ∉ es :=
      fun s hs => h s (List.mem_cons_of_mem _ hs)
    cases e with
    | runStatements s => exact absurd (List.mem_cons_self _ _) (h s)
    | createRedshiftDataHook => simpa [submitted_sql] using ih h'
    | createRedshiftSQLHook => simpa [submitted_sql] using ih h'
    | getS3Connection => simpa [submitted_sql] using ih h'
    | fetchStaticCredentials => simpa [submitted_sql] using ih h'
    | getTablePrimaryKey => simpa [submitted_sql] using ih h'

theorem pre_no_run (op : S3ToRedshiftOperator) (env : ExecEnv) (s : SqlPayload) :
    ExecEvent.runStatements s ∉
      (op.hook_events ++ op.conn_events ++ op.cred_events env) := by
  simp only [S3ToRedshiftOperator.hook_events, S3ToRedshiftOperator.conn_events,
    S3ToRedshiftOperator.cred_events, List.mem_append]
  split <;> split <;> split <;> simp

theorem key_events_no_run (op : S3ToRedshiftOperator) (s : SqlPayload) :
    ExecEvent.runStatements s ∉ op.upsert_key_events := by
  simp only [S3ToRedshiftOperator.upsert_key_events]
  split <;> simp

theorem invalid_method_exec (op : S3ToRedshiftOperator) (env : ExecEnv)
    (hm : op.method ∉ AVAILABLE_METHODS) :
    op.execute env = ([], some method_not_found_msg) := by
  simp [S3ToRedshiftOperator.execute, hm]

/-- Claim C3: for every method outside APPEND, REPLACE, UPSERT, `execute`
raises the configuration error with an empty interaction trace — no hook is
constructed, no credentials are resolved, and no statement is submitted. -/
theorem invalid_method_rejected (op : S3ToRedshiftOperator) (env : ExecEnv)
    (hm : op.method ∉ AVAILABLE_METHODS) :
    op.execute env = ([], some method_not_found_msg) :=
  invalid_method_exec op env hm

/-- Claim C5: for `method = APPEND` the planned output is the single
compiled COPY statement with no transaction delimiters added. -/
theorem append_plan (op : S3ToRedshiftOperator) (env : ExecEnv)
    (hm : op.method = "APPEND") :
    (op.execute env).2 = none ∧
    submitted_sql (op.execute env).1 =
      some (SqlPayload.single (op.copy_statement env)) ∧
    (SqlPayload.single (op.copy_statement env)).toStatements =
      [op.copy_statement env] := by
  have hx : op.execute env =
      (op.hook_events ++ op.conn_events ++ op.cred_events env ++
        [ExecEvent.runStatements (SqlPayload.single (op.copy_statement env))],
       none) := by
    simp [S3ToRedshiftOperator.execute, hm, AVAILABLE_METHODS]
  refine ⟨by rw [hx], ?_, rfl⟩
  rw [hx]
  rw [submitted_sql_append _ _ (fun s => pre_no_run op env s)]
  rfl

theorem destination_of_schema (op : S3ToRedshiftOperator) (s : String)
    (hs : op.schema = some s) (hsne : s ≠ "") :
    op.destination = s ++ "." ++ op.table := by
  simp [S3ToRedshiftOperator.destination, pyTruthy, hs, hsne]

theorem destination_of_no_schema (op : S3ToRedshiftOperator)
    (hs : op.schema = none) : op.destination = op.table := by
  simp [S3ToRedshiftOperator.destination, pyTruthy, hs]

theorem replace_exec (op : S3ToRedshiftOperator) (env : ExecEnv)
    (hm : op.method = "REPLACE") :
    op.execute env =
      (op.hook_events ++ op.conn_events ++ op.cred_events env ++
        [ExecEvent.runStatements (op.replace_sql env)], none) := by
  simp [S3ToRedshiftOperator.execute, hm, AVAILABLE_METHODS]

/-- Claim C2: for `method = REPLACE` the planned statement sequence is
exactly `BEGIN;`, `DELETE FROM <destination>;`, the COPY statement, `COMMIT`,
in that order, where the destination is `<schema>.<table>` when a schema is
supplied and `<table>` otherwise. -/
theorem replace_plan (op op₂ : S3ToRedshiftOperator) (env env₂ : ExecEnv)
    (s : String) (hm : op.method = "REPLACE") (hm₂ : op₂.method = "REPLACE")
    (hs : op.schema = some s) (hsne : s ≠ "") (hs₂ : op₂.schema = none) :
    (op.execute env).2 = none ∧
    submitted_sql (op.execute env).1 = some (SqlPayload.multi
      ["BEGIN;", "DELETE FROM " ++ (s ++ "." ++ op.table) ++ ";",
       op.copy_statement env, "COMMIT"]) ∧
    (op₂.execute env₂).2 = none ∧
    submitted_sql (op₂.execute env₂).1 = some (SqlPayload.multi
      ["BEGIN;", "DELETE FROM " ++ op₂.table ++ ";",
       op₂.copy_statement env₂, "COMMIT"]) := by
  have h1 := replace_exec op env hm
  have h2 := replace_exec op₂ env₂ hm₂
  refine ⟨by rw [h1], ?_, by rw [h2], ?_⟩
  · rw [h1]
    rw [submitted_sql_append _ _ (pre_no_run op env)]
    simp [submitted_sql, S3ToRedshiftOperator.replace_sql,
      destination_of_schema op s hs hsne]
  · rw [h2]
    rw [submitted_sql_append _ _ (pre_no_run op₂ env₂)]
    simp [submitted_sql, S3ToRedshiftOperator.replace_sql,
      destination_of_no_schema op₂ hs₂]

theorem upsert_exec_success (op : S3ToRedshiftOperator) (env : ExecEnv)
    (hm : op.method = "UPSERT")
    (hk : (op.resolved_keys env).isEmpty = false) :
    op.execute env =
      (op.hook_events ++ op.conn_events ++ op.cred_events env ++
        op.upsert_key_events ++
        [ExecEvent.runStatements (op.upsert_sql env)], none) := by
  simp [S3ToRedshiftOperator.execute, hm, AVAILABLE_METHODS, hk]

theorem upsert_exec_failure (op : S3ToRedshiftOperator) (env : ExecEnv)
    (hm : op.method = "UPSERT")
    (hk : (op.resolved_keys env).isEmpty = true) :
    op.execute env =
      (op.hook_events ++ op.conn_events ++ op.cred_events env ++
        op.upsert_key_events, some op.no_primary_key_msg) := by
  simp [S3ToRedshiftOperator.execute, hm, AVAILABLE_METHODS, hk]

/-- Claim C1: for `method = UPSERT` with supplied non-empty upsert keys, the
planned statement sequence has exactly six elements in order — a CREATE TABLE
of the staging table `#<table>` (LIKE the destination INCLUDING DEFAULTS),
the COPY loading into the staging table, `BEGIN;`, a DELETE FROM destination
USING staging whose WHERE clause is the AND-conjunction of
`<table>.<key> = <copyDestination>.<key>` over the keys, an INSERT INTO
destination SELECT * FROM staging, and `COMMIT`; the staging table is
distinct from the destination. -/
theorem upsert_with_keys_plan (op : S3ToRedshiftOperator) (env : ExecEnv)
    (ks : List String) (hm : op.method = "UPSERT")
    (hk : op.upsert_keys = some ks) (hne : ks ≠ []) :
    (op.execute env).2 = none ∧
    submitted_sql (op.execute env).1 = some (SqlPayload.multi
      ["CREATE TABLE " ++ ("#" ++ op.table) ++ " (LIKE " ++ op.destination ++
         " INCLUDING DEFAULTS);",
       op.build_copy_query ("#" ++ op.table) (op.credentials_block env)
         (op.region_info env) op.copy_options_clause,
       "BEGIN;",
       "DELETE FROM " ++ op.destination ++ " USING " ++ ("#" ++ op.table) ++
         " WHERE " ++ String.intercalate " AND "
           (ks.map (fun k => op.table ++ "." ++ k ++ " = " ++
             ("#" ++ op.table) ++ "." ++ k)) ++ ";",
       "INSERT INTO " ++ op.destination ++ " SELECT * FROM " ++
         ("#" ++ op.table) ++ ";",
       "COMMIT"]) ∧
    op.copy_destination = "#" ++ op.table ∧
    op.copy_destination ≠ op.destination := by
  have htr : op.upsert_keys_truthy = true := by
    simp [S3ToRedshiftOperator.upsert_keys_truthy, hk, hne]
  have hres : op.resolved_keys env = ks := by
    simp [S3ToRedshiftOperator.resolved_keys, htr, hk]
  have hkey : op.upsert_key_events = [] := by
    simp [S3ToRedshiftOperator.upsert_key_events, htr]
  have hcd : op.copy_destination = "#" ++ op.table := by
    simp [S3ToRedshiftOperator.copy_destination, hm]
  have hkne : (op.resolved_keys env).isEmpty = false := by
    simp [hres, hne]
  have h1 := upsert_exec_success op env hm hkne
  have hnorun : ∀ t, ExecEvent.runStatements t ∉
      (op.hook_events ++ op.conn_events ++ op.cred_events env ++
        op.upsert_key_events) := by
    intro t ht
    rcases List.mem_append.mp ht with h | h
    · exact pre_no_run op env t h
    · exact key_events_no_run op t h
  have hdist : op.copy_destination ≠ op.destination := by
    rw [hcd]
    intro hx
    have hxl := congrArg String.length hx
    rw [String.length_append] at hxl
    unfold S3ToRedshiftOperator.destination at hxl
    by_cases hps : pyTruthy op.schema = true
    · rw [if_pos hps] at hxl
      cases hsch : op.schema with
      | none => rw [hsch] at hps; simp [pyTruthy] at hps
      | some s' =>
        rw [hsch] at hps hxl
        have hs'ne : s' ≠ "" := by
          simp [pyTruthy] at hps
          exact hps
        have hdne : s'.data ≠ [] := by
          intro hd
          exact hs'ne (String.ext (hd.trans rfl))
        have hpos : 0 < s'.length := List.length_pos.mpr hdne
        simp [String.length_append] at hxl
        have e1 : "#".length = 1 := rfl
        have e2 : ".".length = 1 := rfl
        omega
    · rw [if_neg hps] at hxl
      simp at hxl
      exact absurd hxl (by decide)
  refine ⟨by rw [h1], ?_, hcd, hdist⟩
  rw [h1]
  rw [submitted_sql_append _ _ hnorun]
  simp only [submitted_sql, S3ToRedshiftOperator.upsert_sql,
    S3ToRedshiftOperator.where_statement, S3ToRedshiftOperator.copy_statement,
    hres, hcd]

/-- Claim C4: for `method = UPSERT` with no upsert keys supplied and empty
backend key discovery, `execute` raises the no-primary-key error after
attempting discovery and submits no statements. -/
theorem upsert_no_keys_error (op : S3ToRedshiftOperator) (env : ExecEnv)
    (hm : op.method = "UPSERT") (hk : op.upsert_keys = none)
    (hd : env.discovered_primary_key = []) :
    (op.execute env).2 = some op.no_primary_key_msg ∧
    submitted_sql (op.execute env).1 = none ∧
    ExecEvent.getTablePrimaryKey ∈ (op.execute env).1 := by
  have htr : op.upsert_keys_truthy = false := by
    simp [S3ToRedshiftOperator.upsert_keys_truthy, hk]
  have hres : op.resolved_keys env = [] := by
    simp [S3ToRedshiftOperator.resolved_keys, htr, hd]
  have hkey : op.upsert_key_events = [ExecEvent.getTablePrimaryKey] := by
    simp [S3ToRedshiftOperator.upsert_key_events, htr]
  have h1 := upsert_exec_failure op env hm (by simp [hres])
  have hnorun : ∀ t, ExecEvent.runStatements t ∉
      (op.hook_events ++ op.conn_events ++ op.cred_events env ++
        op.upsert_key_events) := by
    intro t ht
    rcases List.mem_append.mp ht with h | h
    · exact pre_no_run op env t h
    · exact key_events_no_run op t h
  refine ⟨by rw [h1], ?_, ?_⟩
  · rw [h1]
    have := submitted_sql_append
      (op.hook_events ++ op.conn_events ++ op.cred_events env ++
        op.upsert_key_events) [] hnorun
    simpa using this
  · rw [h1]
    simp [hkey]

theorem append_exec (op : S3ToRedshiftOperator) (env : ExecEnv)
    (hm : op.method = "APPEND") :
    op.execute env =
      (op.hook_events ++ op.conn_events ++ op.cred_events env ++
        [ExecEvent.runStatements (SqlPayload.single (op.copy_statement env))],
       none) := by
  simp [S3ToRedshiftOperator.execute, hm, AVAILABLE_METHODS]

theorem exec_trace_split (op : S3ToRedshiftOperator) (env : ExecEnv)
    (hm : op.method ∈ AVAILABLE_METHODS) :
    ∃ tail, (op.execute env).1 =
      (op.hook_events ++ op.conn_events ++ op.cred_events env) ++ tail ∧
      ∀ e ∈ tail, e = ExecEvent.getTablePrimaryKey ∨
        ∃ s, e = ExecEvent.runStatements s := by
  simp only [AVAILABLE_METHODS, List.mem_cons, List.not_mem_nil, or_false] at hm
  rcases hm with h | h | h
  · exact ⟨_, by rw [append_exec op env h, List.append_assoc], by simp⟩
  · exact ⟨_, by rw [replace_exec op env h, List.append_assoc], by simp⟩
  · by_cases hk : (op.resolved_keys env).isEmpty = true
    · refine ⟨op.upsert_key_events,
        by rw [upsert_exec_failure op env h hk, List.append_assoc], ?_⟩
      intro e he
      left
      unfold S3ToRedshiftOperator.upsert_key_events at he
      split at he <;> simp_all
    · refine ⟨op.upsert_key_events ++
        [ExecEvent.runStatements (op.upsert_sql env)], ?_, ?_⟩
      · rw [upsert_exec_success op env h (by simpa using hk)]
        simp [List.append_assoc]
      · intro e he
        rcases List.mem_append.mp he with h' | h'
        · left
          unfold S3ToRedshiftOperator.upsert_key_events at h'
          split at h' <;> simp_all
        · right
          simp at h'
          exact ⟨_, h'⟩

/-- Claim C9: when the object-storage connection metadata carries a role
ARN, the credentials clause embedded in the COPY statement is
`aws_iam_role=<arn>` and static credentials are never fetched; otherwise the
clause is the fetched static credentials block. -/
theorem role_arn_credentials (op op₂ : S3ToRedshiftOperator)
    (env env₂ : ExecEnv) (arn : String)
    (hc : pyTruthy op.aws_conn_id = true)
    (ha : env.conn_extras.role_arn = some arn) (hane : arn ≠ "")
    (h₂ : op₂.uses_role_arn env₂ = false)
    (hm₂ : op₂.method ∈ AVAILABLE_METHODS) :
    op.credentials_block env = "aws_iam_role=" ++ arn ∧
    op.copy_statement env = op.build_copy_query op.copy_destination
      ("aws_iam_role=" ++ arn) (op.region_info env) op.copy_options_clause ∧
    ExecEvent.fetchStaticCredentials ∉ (op.execute env).1 ∧
    op₂.credentials_block env₂ = env₂.credentials_block_static ∧
    ExecEvent.fetchStaticCredentials ∈ (op₂.execute env₂).1 := by
  have hra : pyTruthy env.conn_extras.role_arn = true := by
    simp [pyTruthy, ha, hane]
  have hr : op.uses_role_arn env = true := by
    simp [S3ToRedshiftOperator.uses_role_arn, hc, hra]
  have hcb : op.credentials_block env = "aws_iam_role=" ++ arn := by
    simp [S3ToRedshiftOperator.credentials_block, hr, ha]
  refine ⟨hcb, ?_, ?_, ?_, ?_⟩
  · simp [S3ToRedshiftOperator.copy_statement, hcb]
  · by_cases hm : op.method ∈ AVAILABLE_METHODS
    · rcases exec_trace_split op env hm with ⟨tail, htr, hchar⟩
      rw [htr]
      intro hmem
      rcases List.mem_append.mp hmem with h | h
      · rcases List.mem_append.mp h with h' | h'
        · rcases List.mem_append.mp h' with h'' | h''
          · revert h''
            unfold S3ToRedshiftOperator.hook_events
            split <;> simp
          · revert h''
            unfold S3ToRedshiftOperator.conn_events
            split <;> simp
        · revert h'
          simp [S3ToRedshiftOperator.cred_events, hr]
      · rcases hchar _ h with h' | ⟨s, h'⟩ <;> simp at h'
    · rw [invalid_method_exec op env hm]
      simp
  · simp [S3ToRedshiftOperator.credentials_block, h₂]
  · rcases exec_trace_split op₂ env₂ hm₂ with ⟨tail, htr, _⟩
    rw [htr]
    have hmf : ExecEvent.fetchStaticCredentials ∈ op₂.cred_events env₂ := by
      simp [S3ToRedshiftOperator.cred_events, h₂]
    simp [List.mem_append, hmf]

/-- Claim C6: the column list `["a","b"]` renders as the clause `(a, b)`;
an empty column list and an absent column list render no clause at all and
produce byte-identical COPY text. -/
theorem column_list_rendering (op₁ op₂ op₃ : S3ToRedshiftOperator)
    (cd cb ri co : String)
    (h₁ : op₁.column_list = some ["a", "b"])
    (h₂ : op₂.column_list = some []) (h₃ : op₃.column_list = none)
    (hb : op₂.s3_bucket = op₃.s3_bucket) (hk : op₂.s3_key = op₃.s3_key) :
    op₁.column_names = "(a, b)" ∧
    op₂.column_names = "" ∧ op₃.column_names = "" ∧
    op₂.build_copy_query cd cb ri co = op₃.build_copy_query cd cb ri co := by
  have e₁ : op₁.column_names = "(a, b)" := by
    unfold S3ToRedshiftOperator.column_names
    rw [h₁]
    decide
  have e₂ : op₂.column_names = "" := by
    unfold S3ToRedshiftOperator.column_names
    rw [h₂]
    decide
  have e₃ : op₃.column_names = "" := by
    unfold S3ToRedshiftOperator.column_names
    rw [h₃]
  exact ⟨e₁, e₂, e₃, by
    simp [S3ToRedshiftOperator.build_copy_query, e₂, e₃, hb, hk]⟩

/-- Claim C7: a Redshift Data API kwargs dict containing the key `sql` or
the key `parameters` makes construction fail with the configuration error,
before any statement is built or any backend is contacted. -/
theorem reserved_kwargs_rejected (table s3_bucket s3_key : String)
    (schema : Option String) (redshift_conn_id : String)
    (aws_conn_id : Option String) (column_list : Option (List String))
    (copy_options : Option (List String)) (autocommit : Bool) (method : String)
    (upsert_keys : Option (List String)) (kw : List String)
    (h : "sql" ∈ kw ∨ "parameters" ∈ kw) :
    mkS3ToRedshiftOperator table s3_bucket s3_key schema redshift_conn_id
      aws_conn_id column_list copy_options autocommit method upsert_keys
      (some kw) = Except.error
        (if "sql" ∈ kw then
          "Cannot include param 'sql' in Redshift Data API kwargs"
         else
          "Cannot include param 'parameters' in Redshift Data API kwargs") := by
  have hne : kw ≠ [] := by
    rcases h with h | h <;> (rintro rfl; simp at h)
  unfold mkS3ToRedshiftOperator
  by_cases hs : "sql" ∈ kw
  · simp [hne, hs]
  · have hp : "parameters" ∈ kw := h.resolve_left hs
    simp [hne, hs, hp]

/-- Claim C10: an empty upsert-keys list behaves exactly like absent upsert
keys — execution is identical, primary-key discovery still runs, and with
empty discovery the no-primary-key error is raised. -/
theorem empty_upsert_keys_discovery (op : S3ToRedshiftOperator) (env : ExecEnv)
    (hm : op.method = "UPSERT") :
    ({ op with upsert_keys := some [] } : S3ToRedshiftOperator).execute env =
      ({ op with upsert_keys := none } : S3ToRedshiftOperator).execute env ∧
    ExecEvent.getTablePrimaryKey ∈
      (({ op with upsert_keys := some [] } :
        S3ToRedshiftOperator).execute env).1 ∧
    (env.discovered_primary_key = [] →
      (({ op with upsert_keys := some [] } :
        S3ToRedshiftOperator).execute env).2 = some op.no_primary_key_msg) := by
  have hms : ({ op with upsert_keys := some [] } :
      S3ToRedshiftOperator).method = "UPSERT" := by simpa using hm
  have hmn : ({ op with upsert_keys := none } :
      S3ToRedshiftOperator).method = "UPSERT" := by simpa using hm
  have ht₁ : ({ op with upsert_keys := some [] } :
      S3ToRedshiftOperator).upsert_keys_truthy = false := by
    simp [S3ToRedshiftOperator.upsert_keys_truthy]
  have ht₂ : ({ op with upsert_keys := none } :
      S3ToRedshiftOperator).upsert_keys_truthy = false := by
    simp [S3ToRedshiftOperator.upsert_keys_truthy]
  have hr₁ : ({ op with upsert_keys := some [] } :
      S3ToRedshiftOperator).resolved_keys env = env.discovered_primary_key := by
    simp [S3ToRedshiftOperator.resolved_keys, ht₁]
  have hr₂ : ({ op with upsert_keys := none } :
      S3ToRedshiftOperator).resolved_keys env = env.discovered_primary_key := by
    simp [S3ToRedshiftOperator.resolved_keys, ht₂]
  have hkeyev : ({ op with upsert_keys := some [] } :
      S3ToRedshiftOperator).upsert_key_events =
      [ExecEvent.getTablePrimaryKey] := by
    simp [S3ToRedshiftOperator.upsert_key_events, ht₁]
  refine ⟨?_, ?_, ?_⟩
  · by_cases hd : env.discovered_primary_key.isEmpty = true
    · rw [upsert_exec_failure _ env hms (by rw [hr₁]; exact hd),
        upsert_exec_failure _ env hmn (by rw [hr₂]; exact hd)]
      simp [S3ToRedshiftOperator.hook_events, S3ToRedshiftOperator.use_redshift_data,
        S3ToRedshiftOperator.conn_events, S3ToRedshiftOperator.cred_events,
        S3ToRedshiftOperator.uses_role_arn, S3ToRedshiftOperator.upsert_key_events,
        ht₁, ht₂, S3ToRedshiftOperator.no_primary_key_msg]
    · have hd' : (env.discovered_primary_key).isEmpty = false := by
        simpa using hd
      rw [upsert_exec_success _ env hms (by rw [hr₁]; exact hd'),
        upsert_exec_success _ env hmn (by rw [hr₂]; exact hd')]
      simp [S3ToRedshiftOperator.hook_events, S3ToRedshiftOperator.use_redshift_data,
        S3ToRedshiftOperator.conn_events, S3ToRedshiftOperator.cred_events,
        S3ToRedshiftOperator.uses_role_arn, S3ToRedshiftOperator.upsert_key_events,
        ht₁, ht₂, S3ToRedshiftOperator.upsert_sql, S3ToRedshiftOperator.where_statement,
        S3ToRedshiftOperator.resolved_keys, S3ToRedshiftOperator.copy_destination,
        S3ToRedshiftOperator.destination, S3ToRedshiftOperator.copy_statement,
        S3ToRedshiftOperator.build_copy_query, S3ToRedshiftOperator.column_names,
        S3ToRedshiftOperator.copy_options_clause, S3ToRedshiftOperator.credentials_block,
        S3ToRedshiftOperator.region_info]
  · by_cases hd : env.discovered_primary_key.isEmpty = true
    · rw [upsert_exec_failure _ env hms (by rw [hr₁]; exact hd)]
      simp [hkeyev]
    · rw [upsert_exec_success _ env hms
        (by rw [hr₁]; simpa using hd)]
      simp [hkeyev]
  · intro hd
    rw [upsert_exec_failure _ env hms (by rw [hr₁, hd]; rfl)]
    simp [S3ToRedshiftOperator.no_primary_key_msg]

theorem takeWhile_append_all (p : Char → Bool) (l₁ l₂ : List Char)
    (h : ∀ a ∈ l₁, p a = true) :
    (l₁ ++ l₂).takeWhile p = l₁ ++ l₂.takeWhile p := by
  induction l₁ with
  | nil => simp
  | cons x xs ih =>
    simp [List.takeWhile_cons, h x (List.mem_cons_self x xs),
      ih (fun a ha => h a (List.mem_cons_of_mem _ ha))]

theorem takeWhile_cons_stop (p : Char → Bool) (x : Char) (xs : List Char)
    (hx : p x = false) : (x :: xs).takeWhile p = [] := by
  simp [List.takeWhile_cons, hx]

theorem dropWhile_append_all (p : Char → Bool) (l₁ l₂ : List Char)
    (h : ∀ a ∈ l₁, p a = true) :
    (l₁ ++ l₂).dropWhile p = l₂.dropWhile p := by
  induction l₁ with
  | nil => simp
  | cons x xs ih =>
    simp [List.dropWhile_cons, h x (List.mem_cons_self x xs),
      ih (fun a ha => h a (List.mem_cons_of_mem _ ha))]

theorem dropWhile_cons_stop (p : Char → Bool) (x : Char) (xs : List Char)
    (hx : p x = false) : (x :: xs).dropWhile p = x :: xs := by
  simp [List.dropWhile_cons, hx]

theorem dropWhile_cons_skip (p : Char → Bool) (x : Char) (xs : List Char)
    (hx : p x = true) : (x :: xs).dropWhile p = xs.dropWhile p := by
  simp [List.dropWhile_cons, hx]

theorem bne_all_of_not_mem (c : Char) (l : List Char) (h : c ∉ l) :
    ∀ a ∈ l, (a != c) = true := by
  intro a ha
  simp only [bne_iff_ne, ne_eq]
  exact fun e => h (e ▸ ha)

theorem parse_shape (t : String) (cdl cnl bl kl rest : List Char)
    (ht : t.data =
      ("\n                    COPY " : String).data ++ (cdl ++ (' ' ::
        (cnl ++ (("\n                    FROM " : String).data ++ (sq ::
          ('s' :: '3' :: ':' :: '/' :: '/' ::
            (bl ++ ('/' :: (kl ++ (sq :: rest)))))))))))
    (hcd : ' ' ∉ cdl) (hcn : sq ∉ cnl) (hb : '/' ∉ bl) (hk : sq ∉ kl) :
    parse_copy_query t = (String.mk cdl, String.mk bl, String.mk kl) := by
  have hdrop : after_copy_hdr
      (("\n                    COPY " : String).data ++ (cdl ++ (' ' ::
        (cnl ++ (("\n                    FROM " : String).data ++ (sq ::
          ('s' :: '3' :: ':' :: '/' :: '/' ::
            (bl ++ ('/' :: (kl ++ (sq :: rest))))))))))) =
      cdl ++ (' ' :: (cnl ++ (("\n                    FROM " : String).data ++
        (sq :: ('s' :: '3' :: ':' :: '/' :: '/' ::
          (bl ++ ('/' :: (kl ++ (sq :: rest))))))))) := by
    unfold after_copy_hdr
    have h26 : ("\n                    COPY " : String).data.length = 26 := rfl
    rw [← h26, List.drop_left]
  have hdest : dest_part
      (("\n                    COPY " : String).data ++ (cdl ++ (' ' ::
        (cnl ++ (("\n                    FROM " : String).data ++ (sq ::
          ('s' :: '3' :: ':' :: '/' :: '/' ::
            (bl ++ ('/' :: (kl ++ (sq :: rest))))))))))) = cdl := by
    unfold dest_part
    rw [hdrop]
    rw [takeWhile_append_all _ _ _ (bne_all_of_not_mem _ _ hcd)]
    rw [takeWhile_cons_stop _ _ _ (by simp)]
    simp
  have hs3 : s3_part
      (("\n                    COPY " : String).data ++ (cdl ++ (' ' ::
        (cnl ++ (("\n                    FROM " : String).data ++ (sq ::
          ('s' :: '3' :: ':' :: '/' :: '/' ::
            (bl ++ ('/' :: (kl ++ (sq :: rest))))))))))) =
      bl ++ ('/' :: (kl ++ (sq :: rest))) := by
    unfold s3_part
    rw [hdrop]
    rw [dropWhile_append_all _ _ _ (bne_all_of_not_mem _ _ hcd)]
    rw [dropWhile_cons_stop _ _ _ (by simp)]
    rw [dropWhile_cons_skip _ _ _ (by decide)]
    rw [dropWhile_append_all _ _ _ (bne_all_of_not_mem _ _ hcn)]
    rw [dropWhile_append_all _ _ _
      (by decide : ∀ a ∈ ("\n                    FROM " : String).data,
        (a != sq) = true)]
    rw [dropWhile_cons_stop _ _ _ (by simp)]
    simp only [List.drop_succ_cons, List.drop_zero]
  have hbucket : bucket_part
      (("\n                    COPY " : String).data ++ (cdl ++ (' ' ::
        (cnl ++ (("\n                    FROM " : String).data ++ (sq ::
          ('s' :: '3' :: ':' :: '/' :: '/' ::
            (bl ++ ('/' :: (kl ++ (sq :: rest))))))))))) = bl := by
    unfold bucket_part
    rw [hs3]
    rw [takeWhile_append_all _ _ _ (bne_all_of_not_mem _ _ hb)]
    rw [takeWhile_cons_stop _ _ _ (by simp)]
    simp
  have hkey : key_part
      (("\n                    COPY " : String).data ++ (cdl ++ (' ' ::
        (cnl ++ (("\n                    FROM " : String).data ++ (sq ::
          ('s' :: '3' :: ':' :: '/' :: '/' ::
            (bl ++ ('/' :: (kl ++ (sq :: rest))))))))))) = kl := by
    unfold key_part
    rw [hs3]
    rw [dropWhile_append_all _ _ _ (bne_all_of_not_mem _ _ hb)]
    rw [dropWhile_cons_stop _ _ _ (by simp)]
    simp only [List.drop_succ_cons, List.drop_zero]
    rw [takeWhile_append_all _ _ _ (bne_all_of_not_mem _ _ hk)]
    rw [takeWhile_cons_stop _ _ _ (by simp)]
    simp
  unfold parse_copy_query
  rw [ht, hdest, hbucket, hkey]

theorem build_copy_query_data (op : S3ToRedshiftOperator)
    (cd cb ri co : String) :
    (op.build_copy_query cd cb ri co).data =
      ("\n                    COPY " : String).data ++ (cd.data ++ (' ' ::
        (op.column_names.data ++ (("\n                    FROM " : String).data ++
          (sq :: ('s' :: '3' :: ':' :: '/' :: '/' ::
            (op.s3_bucket.data ++ ('/' :: (op.s3_key.data ++ (sq ::
              (("\n                    credentials\n                    '" : String).data ++
                (cb.data ++ (("'\n                    " : String).data ++
                  (ri.data ++ (("\n                    " : String).data ++
                    (co.data ++ (";\n        " : String).data)))))))))))))))) := by
  have e2 : (" " : String).data = [' '] := rfl
  have e3 : ("\n                    FROM 's3://" : String).data =
      ("\n                    FROM " : String).data ++
        (sq :: ('s' :: '3' :: ':' :: '/' :: '/' :: [])) := rfl
  have e4 : ("/" : String).data = ['/'] := rfl
  have e5 : ("'\n                    credentials\n                    '" : String).data =
      sq :: ("\n                    credentials\n                    '" : String).data := rfl
  simp only [S3ToRedshiftOperator.build_copy_query, String.data_append, e2, e3,
    e4, e5, sq, List.append_assoc, List.cons_append, List.singleton_append,
    List.nil_append]

/-- Claim C8: compiling the COPY statement and then re-parsing the
destination, bucket and key prefix out of the resulting text recovers the
original values, for inputs free of the delimiter characters of the
template. -/
theorem copy_query_round_trip (op : S3ToRedshiftOperator)
    (cd cb ri co : String)
    (hcd : ' ' ∉ cd.data) (hcn : sq ∉ op.column_names.data)
    (hb : '/' ∉ op.s3_bucket.data) (hk : sq ∉ op.s3_key.data) :
    parse_copy_query (op.build_copy_query cd cb ri co) =
      (cd, op.s3_bucket, op.s3_key) := by
  have h := parse_shape (op.build_copy_query cd cb ri co) cd.data
    op.column_names.data op.s3_bucket.data op.s3_key.data
    (("\n                    credentials\n                    '" : String).data ++
      (cb.data ++ (("'\n                    " : String).data ++
        (ri.data ++ (("\n                    " : String).data ++
          (co.data ++ (";\n        " : String).data))))))
    (build_copy_query_data op cd cb ri co) hcd hcn hb hk
  rw [h]


/-- Witness for claim C1 at a concrete UPSERT configuration. -/
theorem upsert_with_keys_plan_witness :
    (opC1.execute envW).2 = none ∧
    submitted_sql (opC1.execute envW).1 = some (SqlPayload.multi
      ["CREATE TABLE #orders (LIKE public.orders INCLUDING DEFAULTS);",
       opC1.build_copy_query "#orders" (opC1.credentials_block envW)
         (opC1.region_info envW) opC1.copy_options_clause,
       "BEGIN;",
       "DELETE FROM public.orders USING #orders WHERE orders.id = #orders.id;",
       "INSERT INTO public.orders SELECT * FROM #orders;",
       "COMMIT"]) ∧
    opC1.copy_destination = "#orders" ∧
    opC1.copy_destination ≠ opC1.destination :=
  upsert_with_keys_plan opC1 envW ["id"] rfl rfl (by decide)

/-- Witness for claim C2 at concrete REPLACE configurations with and without
a schema. -/
theorem replace_plan_witness :
    (opC2a.execute envW).2 = none ∧
    submitted_sql (opC2a.execute envW).1 = some (SqlPayload.multi
      ["BEGIN;", "DELETE FROM public.orders;",
       opC2a.copy_statement envW, "COMMIT"]) ∧
    (opC2b.execute envW).2 = none ∧
    submitted_sql (opC2b.execute envW).1 = some (SqlPayload.multi
      ["BEGIN;", "DELETE FROM orders;",
       opC2b.copy_statement envW, "COMMIT"]) :=
  replace_plan opC2a opC2b envW envW "public" rfl rfl rfl (by decide) rfl

/-- Witness for claim C3 at the unknown method `MERGE`. -/
theorem invalid_method_rejected_witness :
    opC3.execute envW = ([], some method_not_found_msg) :=
  invalid_method_rejected opC3 envW (by decide)

/-- Witness for claim C4 at a concrete keyless UPSERT configuration. -/
theorem upsert_no_keys_error_witness :
    (opC4.execute envW).2 = some opC4.no_primary_key_msg ∧
    submitted_sql (opC4.execute envW).1 = none ∧
    ExecEvent.getTablePrimaryKey ∈ (opC4.execute envW).1 :=
  upsert_no_keys_error opC4 envW rfl rfl rfl

/-- Witness for claim C5 at a concrete APPEND configuration. -/
theorem append_plan_witness :
    (baseOp.execute envW).2 = none ∧
    submitted_sql (baseOp.execute envW).1 =
      some (SqlPayload.single (baseOp.copy_statement envW)) ∧
    (SqlPayload.single (baseOp.copy_statement envW)).toStatements =
      [baseOp.copy_statement envW] :=
  append_plan baseOp envW rfl

/-- Witness for claim C6 at concrete column lists. -/
theorem column_list_rendering_witness :
    opC6a.column_names = "(a, b)" ∧
    opC6b.column_names = "" ∧ baseOp.column_names = "" ∧
    opC6b.build_copy_query "d" "c" "r" "o" =
      baseOp.build_copy_query "d" "c" "r" "o" :=
  column_list_rendering opC6a opC6b baseOp "d" "c" "r" "o" rfl rfl rfl rfl rfl

/-- Witness for claim C7 at a kwargs dict containing the reserved key
`sql`. -/
theorem reserved_kwargs_rejected_witness :
    mkS3ToRedshiftOperator "orders" "my-bucket" "data/2024/" (some "public")
      "redshift_default" (some "aws_default") none none false "APPEND" none
      (some ["sql", "database"]) =
      Except.error "Cannot include param 'sql' in Redshift Data API kwargs" :=
  reserved_kwargs_rejected "orders" "my-bucket" "data/2024/" (some "public")
    "redshift_default" (some "aws_default") none none false "APPEND" none
    ["sql", "database"] (Or.inl (by decide))

/-- Witness for claim C8 at concrete delimiter-free inputs. -/
theorem copy_query_round_trip_witness :
    parse_copy_query
      (opC8.build_copy_query "public.orders" "CREDS" "region 'x'" "CSV") =
      ("public.orders", opC8.s3_bucket, opC8.s3_key) :=
  copy_query_round_trip opC8 "public.orders" "CREDS" "region 'x'" "CSV"
    (by decide) (by decide) (by decide) (by decide)

/-- Witness for claim C9 at a connection with a role ARN and one without. -/
theorem role_arn_credentials_witness :
    baseOp.credentials_block envC9 =
      "aws_iam_role=" ++ "arn:aws:iam::123456789012:role/redshift-copy" ∧
    baseOp.copy_statement envC9 = baseOp.build_copy_query
      baseOp.copy_destination
      ("aws_iam_role=" ++ "arn:aws:iam::123456789012:role/redshift-copy")
      (baseOp.region_info envC9) baseOp.copy_options_clause ∧
    ExecEvent.fetchStaticCredentials ∉ (baseOp.execute envC9).1 ∧
    opC2a.credentials_block envW = envW.credentials_block_static ∧
    ExecEvent.fetchStaticCredentials ∈ (opC2a.execute envW).1 :=
  role_arn_credentials baseOp opC2a envC9 envW
    "arn:aws:iam::123456789012:role/redshift-copy"
    (by decide) rfl (by decide) (by decide) (by decide)

/-- Witness for claim C10 at a concrete UPSERT configuration. -/
theorem empty_upsert_keys_discovery_witness :
    ({ opC4 with upsert_keys := some [] } : S3ToRedshiftOperator).execute envW
      = ({ opC4 with upsert_keys := none } :
          S3ToRedshiftOperator).execute envW ∧
    ExecEvent.getTablePrimaryKey ∈
      (({ opC4 with upsert_keys := some [] } :
        S3ToRedshiftOperator).execute envW).1 ∧
    (({ opC4 with upsert_keys := some [] } :
      S3ToRedshiftOperator).execute envW).2 = some opC4.no_primary_key_msg :=
  ⟨(empty_upsert_keys_discovery opC4 envW rfl).1,
   (empty_upsert_keys_discovery opC4 envW rfl).2.1,
   (empty_upsert_keys_discovery opC4 envW rfl).2.2 rfl⟩

end S3ToRedshift
